import Mathlib

/-!
Verification of the Bamboo-bot agent runtime core against its specification.

The definitions below are a shallow embedding of the Rust sources:
  - crates/agent-mcp (SSE transport, protocol client, manager, executor)
  - crates/agent-llm (provider status handling)
  - crates/web_service (Gemini streaming controller)
Machine integers are modelled as Nat (no arithmetic in the embedded code
overflows at the studied inputs); fallible code returns Option/Except;
asynchronous effects (transport I/O, the manager RPC) are passed in as
explicit results or response functions.
-/

namespace Bamboo

/-! ## JSON values (embedding of serde_json::Value)

Numbers keep their raw source token: serde_json stores i64/u64/f64 and two
differently written tokens compare unequal unless they parse to the same
machine value; no theorem below compares numbers written differently, so the
raw token is an adequate model. -/

inductive Json where
  | null : Json
  | bool (b : Bool) : Json
  | num (raw : String) : Json
  | str (s : String) : Json
  | arr (items : List Json) : Json
  | obj (fields : List (String × Json)) : Json
deriving Repr

/-! ## A JSON parser (embedding of serde_json::from_str::<Value>)

Recursive-descent over the character list with fuel (the input length bounds
the recursion depth).  It accepts the JSON grammar: null / true / false,
numbers (optional minus, integer part, optional fraction and exponent),
strings with the standard escapes, arrays and objects; the whole input, up to
surrounding whitespace, must be consumed. -/

def lbraceChar : Char := Char.ofNat 123

def rbraceChar : Char := Char.ofNat 125

def quoteChar : Char := Char.ofNat 34

def backslashChar : Char := Char.ofNat 92

def isJsonWs (c : Char) : Bool :=
  c = ' ' || c = '\t' || c = '\n' || c = '\r'

def skipWs : List Char → List Char
  | [] => []
  | c :: cs => if isJsonWs c then skipWs cs else c :: cs

def isJsonDigit (c : Char) : Bool := '0' ≤ c ∧ c ≤ '9'

def isHexDigit (c : Char) : Bool :=
  isJsonDigit c || ('a' ≤ c ∧ c ≤ 'f') || ('A' ≤ c ∧ c ≤ 'F')

/-- Consume one or more digits; returns the digits and the rest. -/
def takeDigits : List Char → List Char × List Char
  | [] => ([], [])
  | c :: cs =>
    if isJsonDigit c then
      let (ds, rest) := takeDigits cs
      (c :: ds, rest)
    else ([], c :: cs)

/-- Parse the part of a JSON number after the optional minus sign.
Grammar: int frac? exp?, int = 0 | [1-9][0-9]*. Returns the consumed
characters and the rest. -/
def parseNumTail (cs : List Char) : Option (List Char × List Char) :=
  match takeDigits cs with
  | ([], _) => none
  | (intDigits, rest0) =>
    if intDigits.head? = some '0' ∧ intDigits.length > 1 then none
    else
      let (fracPart, rest1) :=
        match rest0 with
        | '.' :: cs1 =>
          match takeDigits cs1 with
          | ([], _) => ([], rest0)
          | (ds, r) => ('.' :: ds, r)
        | _ => ([], rest0)
      if rest1 ≠ rest0 ∧ fracPart = [] then none
      else
        match rest0, fracPart with
        | '.' :: _, [] => none
        | _, _ =>
          let (expPart, rest2) :=
            match rest1 with
            | c :: cs2 =>
              if c = 'e' ∨ c = 'E' then
                match cs2 with
                | s :: cs3 =>
                  if s = '+' ∨ s = '-' then
                    match takeDigits cs3 with
                    | ([], _) => ([], rest1)
                    | (ds, r) => (c :: s :: ds, r)
                  else
                    match takeDigits cs2 with
                    | ([], _) => ([], rest1)
                    | (ds, r) => (c :: ds, r)
                | [] => ([], rest1)
              else ([], rest1)
            | [] => ([], rest1)
          match rest1 with
          | c :: _ =>
            if (c = 'e' ∨ c = 'E') ∧ expPart = [] then none
            else some (intDigits ++ fracPart ++ expPart, rest2)
          | [] => some (intDigits ++ fracPart ++ expPart, rest2)

/-- Parse the body of a JSON string after the opening quote, resolving the
standard escapes.  Returns the decoded characters and the rest after the
closing quote. -/
def parseStringBody (fuel : Nat) (cs : List Char) : Option (List Char × List Char) :=
  match fuel, cs with
  | 0, _ => none
  | _, [] => none
  | fuel + 1, c :: cs =>
    if c = quoteChar then some ([], cs)
    else if c = backslashChar then
      match cs with
      | [] => none
      | e :: cs2 =>
        if e = quoteChar then
          (parseStringBody fuel cs2).map (fun (s, r) => (quoteChar :: s, r))
        else if e = backslashChar then
          (parseStringBody fuel cs2).map (fun (s, r) => (backslashChar :: s, r))
        else if e = '/' then
          (parseStringBody fuel cs2).map (fun (s, r) => ('/' :: s, r))
        else if e = 'b' then
          (parseStringBody fuel cs2).map (fun (s, r) => (Char.ofNat 8 :: s, r))
        else if e = 'f' then
          (parseStringBody fuel cs2).map (fun (s, r) => (Char.ofNat 12 :: s, r))
        else if e = 'n' then
          (parseStringBody fuel cs2).map (fun (s, r) => ('\n' :: s, r))
        else if e = 'r' then
          (parseStringBody fuel cs2).map (fun (s, r) => ('\r' :: s, r))
        else if e = 't' then
          (parseStringBody fuel cs2).map (fun (s, r) => ('\t' :: s, r))
        else if e = 'u' then
          match cs2 with
          | h1 :: h2 :: h3 :: h4 :: cs3 =>
            if isHexDigit h1 && isHexDigit h2 && isHexDigit h3 && isHexDigit h4 then
              let hv : Char → Nat := fun c =>
                if isJsonDigit c then c.toNat - '0'.toNat
                else if 'a' ≤ c ∧ c ≤ 'f' then c.toNat - 'a'.toNat + 10
                else c.toNat - 'A'.toNat + 10
              let code := ((hv h1 * 16 + hv h2) * 16 + hv h3) * 16 + hv h4
              (parseStringBody fuel cs3).map (fun (s, r) => (Char.ofNat code :: s, r))
            else none
          | _ => none
        else none
    else if c.toNat < 32 then none
    else (parseStringBody fuel cs).map (fun (s, r) => (c :: s, r))

mutual

/-- Parse one JSON value.  Fuel bounds the nesting depth. -/
def parseValue (fuel : Nat) (cs : List Char) : Option (Json × List Char) :=
  match fuel with
  | 0 => none
  | fuel + 1 =>
    match skipWs cs with
    | [] => none
    | c :: rest =>
      if c = 'n' then
        match rest with
        | 'u' :: 'l' :: 'l' :: r => some (.null, r)
        | _ => none
      else if c = 't' then
        match rest with
        | 'r' :: 'u' :: 'e' :: r => some (.bool true, r)
        | _ => none
      else if c = 'f' then
        match rest with
        | 'a' :: 'l' :: 's' :: 'e' :: r => some (.bool false, r)
        | _ => none
      else if c = quoteChar then
        (parseStringBody (rest.length + 1) rest).map
          (fun (s, r) => (.str (String.mk s), r))
      else if c = '-' then
        (parseNumTail rest).map (fun (tok, r) => (.num (String.mk ('-' :: tok)), r))
      else if isJsonDigit c then
        (parseNumTail (c :: rest)).map (fun (tok, r) => (.num (String.mk tok), r))
      else if c = '[' then
        match skipWs rest with
        | ']' :: r => some (.arr [], r)
        | _ => (parseElems fuel rest).map (fun (xs, r) => (.arr xs, r))
      else if c = lbraceChar then
        match skipWs rest with
        | r :: rs =>
          if r = rbraceChar then some (.obj [], rs)
          else (parseMembers fuel rest).map (fun (kvs, r2) => (.obj kvs, r2))
        | [] => none
      else none

/-- Parse one or more comma-separated array elements and the closing bracket. -/
def parseElems (fuel : Nat) (cs : List Char) : Option (List Json × List Char) :=
  match fuel with
  | 0 => none
  | fuel + 1 =>
    match parseValue fuel cs with
    | none => none
    | some (v, rest) =>
      match skipWs rest with
      | ',' :: r =>
        (parseElems fuel r).map (fun (xs, r2) => (v :: xs, r2))
      | ']' :: r => some ([v], r)
      | _ => none

/-- Parse one or more comma-separated object members and the closing brace. -/
def parseMembers (fuel : Nat) (cs : List Char) : Option (List (String × Json) × List Char) :=
  match fuel with
  | 0 => none
  | fuel + 1 =>
    match skipWs cs with
    | c :: rest =>
      if c = quoteChar then
        match parseStringBody (rest.length + 1) rest with
        | none => none
        | some (key, rest1) =>
          match skipWs rest1 with
          | ':' :: rest2 =>
            match parseValue fuel rest2 with
            | none => none
            | some (v, rest3) =>
              match skipWs rest3 with
              | ',' :: r =>
                (parseMembers fuel r).map
                  (fun (kvs, r2) => ((String.mk key, v) :: kvs, r2))
              | r :: rs =>
                if r = rbraceChar then some ([(String.mk key, v)], rs)
                else none
              | [] => none
          | _ => none
      else none
    | [] => none

end

/-- Embedding of serde_json::from_str::<serde_json::Value>: the whole input,
up to surrounding whitespace, must parse as one JSON value. -/
def jsonParse (s : String) : Option Json :=
  match parseValue (s.length + 1) s.data with
  | some (v, rest) => if skipWs rest = [] then some v else none
  | none => none

/-! ## Core tool types (crates/agent-core, as used by the sources under study) -/

structure FunctionCall where
  name : String
  arguments : String
deriving Repr, DecidableEq

structure ToolCall where
  id : String
  tool_type : String
  function : FunctionCall
deriving Repr, DecidableEq

structure ToolResult where
  success : Bool
  result : String
  display_preference : Option String
deriving Repr, DecidableEq

inductive ToolError where
  | NotFound (msg : String)
  | InvalidArguments (msg : String)
  | Execution (msg : String)
deriving Repr, DecidableEq

/-! ## MCP data types (crates/agent-mcp/src/types.rs) -/

structure McpResource where
  uri : String
  mime_type : Option String
  text : Option String
  blob : Option String
deriving Repr, DecidableEq

inductive McpContentItem where
  | Text (text : String)
  | Image (data : String) (mime_type : String)
  | Resource (resource : McpResource)
deriving Repr, DecidableEq

structure McpCallResult where
  content : List McpContentItem
  is_error : Bool
deriving Repr, DecidableEq

structure McpTool where
  name : String
  description : String
  parameters : Json
deriving Repr

/-- Tool alias mapping (types.rs).  The Rust field named alias is called
aliasName here because alias is a reserved word in Lean. -/
structure ToolAlias where
  aliasName : String
  server_id : String
  original_name : String
deriving Repr, DecidableEq

inductive ServerStatus where
  | Connecting
  | Ready
  | Degraded
  | Stopped
  | Error
deriving Repr, DecidableEq

inductive McpEvent where
  | ServerStatusChanged (server_id : String) (status : ServerStatus) (error : Option String)
  | ToolsChanged (server_id : String) (tools : List String)
  | ToolExecuted (server_id : String) (tool_name : String) (success : Bool)
deriving Repr, DecidableEq

/-! ## MCP errors (crates/agent-mcp/src/error.rs) -/

inductive McpError where
  | Transport (msg : String)
  | Protocol (msg : String)
  | Connection (msg : String)
  | Timeout (msg : String)
  | ToolExecution (msg : String)
  | ServerNotFound (id : String)
  | ToolNotFound (name : String)
  | Serialization (msg : String)
  | InvalidConfig (msg : String)
  | Disconnected
  | AlreadyRunning (id : String)
  | NotRunning (id : String)
deriving Repr, DecidableEq

/-- The thiserror Display strings of McpError (error.rs). -/
def McpError.display : McpError → String
  | .Transport m => "Transport error: " ++ m
  | .Protocol m => "Protocol error: " ++ m
  | .Connection m => "Connection error: " ++ m
  | .Timeout m => "Timeout error: " ++ m
  | .ToolExecution m => "Tool execution error: " ++ m
  | .ServerNotFound i => "Server not found: " ++ i
  | .ToolNotFound n => "Tool not found: " ++ n
  | .Serialization m => "Serialization error: " ++ m
  | .InvalidConfig m => "Invalid configuration: " ++ m
  | .Disconnected => "Server disconnected"
  | .AlreadyRunning i => "Server already running: " ++ i
  | .NotRunning i => "Server not running: " ++ i

/-! ## SSE transport (crates/agent-mcp/src/transports/sse.rs)

The background task spawned by SseTransport::connect consumes SSE events and
is the only writer the struct intends for the inbound channel and the
endpoint URL.  The state below holds exactly the data that task can touch:
the endpoint_url field of the transport and the inbound message channel. -/

structure SseEvent where
  event : String
  data : String
deriving Repr, DecidableEq

structure SseConnState where
  endpoint_url : Option String
  inbound : List String
deriving Repr, DecidableEq

/-- The SseTransport state right after SseTransport::new. -/
def sseInitState : SseConnState := { endpoint_url := none, inbound := [] }

/-- One iteration of the event loop in SseTransport::connect (sse.rs:84-101).
For an "endpoint" event the code only logs the data (debug!("Got endpoint:
...")); it does not write the endpoint_url field.  "message" and unnamed
events are forwarded into the inbound channel. -/
def sseProcessEvent (st : SseConnState) (ev : SseEvent) : SseConnState :=
  if ev.event = "endpoint" then st
  else if ev.event = "message" ∨ ev.event = "" then
    { st with inbound := st.inbound ++ [ev.data] }
  else st

/-- The whole connect-loop over a list of received SSE events. -/
def sseConnectLoop (evs : List SseEvent) : SseConnState :=
  evs.foldl sseProcessEvent sseInitState

/-- Embedding of Rust str::trim_end_matches: repeatedly remove the suffix
pat while the string ends with it. -/
def trimEndMatchesAux : Nat → List Char → List Char → List Char
  | 0, s, _ => s
  | fuel + 1, s, pat =>
    if pat.length > 0 ∧ pat.isSuffixOf s then
      trimEndMatchesAux fuel (s.take (s.length - pat.length)) pat
    else s

def trimEndMatches (s pat : String) : String :=
  String.mk (trimEndMatchesAux (s.length + 1) s.data pat.data)

/-- The POST URL computed by SseTransport::send (sse.rs:131-135): the
recorded endpoint if any, else the configured URL with a trailing "/sse"
stripped and "/message" appended. -/
def ssePostUrl (configUrl : String) (endpointUrl : Option String) : String :=
  endpointUrl.getD (trimEndMatches configUrl "/sse" ++ "/message")

/-! ## Reconnection backoff (crates/agent-mcp/src/manager.rs, attempt_reconnection) -/

/-- The backoff update run after a failed reconnection attempt
(manager.rs:578-583). -/
def backoffNext (maxBackoffMs cur : Nat) : Nat :=
  if maxBackoffMs > cur then min (cur * 2) maxBackoffMs else cur

/-- The delay slept before attempt n (0-indexed) when every attempt fails:
attempt 0 sleeps initial_backoff_ms, and each failure applies backoffNext. -/
def backoffDelay (initialBackoffMs maxBackoffMs : Nat) : Nat → Nat
  | 0 => initialBackoffMs
  | n + 1 => backoffNext maxBackoffMs (backoffDelay initialBackoffMs maxBackoffMs n)

/-! ## Tool executors (crates/agent-mcp/src/executor.rs) -/

/-- McpToolExecutor::format_result_content. -/
def formatResultContent (content : List McpContentItem) : String :=
  String.intercalate "\n" (content.map (fun item =>
    match item with
    | .Text text => text
    | .Image data mime_type =>
      "[Image: " ++ mime_type ++ " (" ++ toString data.length ++ " bytes)]"
    | .Resource resource =>
      match resource.text with
      | some text => "[Resource " ++ resource.uri ++ "]: " ++ text
      | none => "[Resource " ++ resource.uri ++ "]"))

/-- McpToolExecutor::execute.  The tool-index lookup result and the manager
dispatch (both external to the function body) are passed in: lookupRes is
self.index.lookup(tool_name) and callTool args is
self.manager.call_tool(alias.server_id, alias.original_name, args).
serde_json::from_str on the arguments is the jsonParse embedding; the
detail text of its parse errors is not modelled. -/
def mcpExecute (call : ToolCall) (lookupRes : Option ToolAlias)
    (callTool : Json → Except McpError McpCallResult) :
    Except ToolError ToolResult :=
  match lookupRes with
  | none => .error (.NotFound ("MCP tool '" ++ call.function.name ++ "' not found"))
  | some _ =>
    match jsonParse call.function.arguments with
    | none => .error (.InvalidArguments "Invalid JSON")
    | some args =>
      match callTool args with
      | .ok result =>
        if result.is_error then
          .ok { success := false, result := formatResultContent result.content,
                display_preference := none }
        else
          .ok { success := true, result := formatResultContent result.content,
                display_preference := none }
      | .error (.ServerNotFound id) =>
        .error (.NotFound ("MCP server '" ++ id ++ "' not found"))
      | .error (.ToolNotFound name) =>
        .error (.NotFound ("Tool '" ++ name ++ "' not found"))
      | .error e => .error (.Execution ("MCP error: " ++ e.display))

/-- CompositeToolExecutor::execute (executor.rs:147-161), with the two inner
executors represented by their results for the given call.  The second
component counts how many times the MCP executor was invoked. -/
def compositeExecute (builtinRes mcpRes : Except ToolError ToolResult) :
    Except ToolError ToolResult × Nat :=
  match builtinRes with
  | .ok r => (.ok r, 0)
  | .error (.NotFound _) => (mcpRes, 1)
  | .error e => (.error e, 0)

/-- Spec-side predicate: the built-in executor outcome is a NotFound error. -/
def isNotFoundErr : Except ToolError ToolResult → Bool
  | .error (.NotFound _) => true
  | _ => false

/-! ## LLM provider errors and upstream-status handling
(crates/agent-llm/src/provider.rs and providers/{openai,gemini}/mod.rs) -/

inductive LLMError where
  | Http (msg : String)
  | Json (msg : String)
  | Stream (msg : String)
  | Api (msg : String)
  | Auth (msg : String)
  | Protocol (msg : String)
deriving Repr, DecidableEq

/-- The thiserror Display strings of LLMError (provider.rs). -/
def LLMError.display : LLMError → String
  | .Http m => "HTTP error: " ++ m
  | .Json m => "JSON error: " ++ m
  | .Stream m => "Stream error: " ++ m
  | .Api m => "API error: " ++ m
  | .Auth m => "Authentication error: " ++ m
  | .Protocol m => "Protocol conversion error: " ++ m

/-- reqwest StatusCode::is_success: the 2xx range. -/
def isSuccessStatus (status : Nat) : Bool := 200 ≤ status ∧ status < 300

/-- http::StatusCode Display: the code followed by its canonical reason
phrase (spelled out for the statuses the theorems evaluate). -/
def statusDisplay (status : Nat) : String :=
  if status = 401 then "401 Unauthorized"
  else if status = 403 then "403 Forbidden"
  else if status = 500 then "500 Internal Server Error"
  else toString status

/-- Upstream-status handling in OpenAIProvider::chat_stream
(openai/mod.rs:55-59): none means the 2xx path (the stream is returned),
some e means chat_stream returns Err(e).  Every non-success status becomes
Api("HTTP {status}: {text}"); there is no 401/403 branch. -/
def openaiChatStreamStatusCheck (status : Nat) (text : String) : Option LLMError :=
  if isSuccessStatus status then none
  else some (.Api ("HTTP " ++ statusDisplay status ++ ": " ++ text))

/-- Upstream-status handling in GeminiProvider::chat_stream
(gemini/mod.rs:86-101): 401 and 403 become Auth with a credential hint,
every other non-success status becomes Api. -/
def geminiChatStreamStatusCheck (status : Nat) (text : String) : Option LLMError :=
  if isSuccessStatus status then none
  else if status = 401 ∨ status = 403 then
    some (.Auth ("Gemini authentication failed: " ++ text ++ ". Please check your API key."))
  else
    some (.Api ("Gemini API error: HTTP " ++ statusDisplay status ++ ": " ++ text))

/-- Spec-side predicate: the error is the Auth variant. -/
def isAuthError : LLMError → Bool
  | .Auth _ => true
  | _ => false

/-! ## Protocol client request correlation
(crates/agent-mcp/src/protocol/client.rs)

The client allocates ids from an atomic counter starting at 1 and keeps a
map id → one-shot waiter.  The state below carries the counter and the set
of ids with a live waiter; the operations are the three places that touch
them: allocation+insertion at the top of send_request, the timeout branch of
send_request, and handle_message for an inbound response. -/

structure ClientState where
  next_id : Nat
  pending : List Nat
deriving Repr, DecidableEq

/-- The client state right after McpProtocolClient::new (next_id starts at 1,
no pending requests). -/
def clientInitState : ClientState := { next_id := 1, pending := [] }

/-- Lines 138-147 of client.rs: fetch_add the id counter and insert a waiter
for the allocated id.  Returns the allocated id and the new state. -/
def allocRequest (st : ClientState) : Nat × ClientState :=
  (st.next_id, { next_id := st.next_id + 1, pending := st.next_id :: st.pending })

/-- The timeout branch of send_request (client.rs:171-177): remove the
waiter for the id and fail with Timeout.  No message is re-sent. -/
def timeoutExpire (st : ClientState) (id : Nat) (timeoutMs : Nat) :
    ClientState × McpError :=
  ({ st with pending := st.pending.erase id },
   .Timeout ("Request " ++ toString id ++ " timed out after " ++ toString timeoutMs ++ "ms"))

/-- handle_message on an inbound response (client.rs:116-122): remove the
waiter keyed by the response id and resolve it; an unknown id resolves
nothing.  The Bool records whether some waiter was resolved. -/
def handleResponse (st : ClientState) (responseId : Nat) : ClientState × Bool :=
  if responseId ∈ st.pending then
    ({ st with pending := st.pending.erase responseId }, true)
  else (st, false)

/-- The events that can touch the correlation state after a request timed
out: another send_request allocating a fresh id, a later inbound response,
or another request timing out. -/
inductive ClientStep where
  | alloc
  | respond (responseId : Nat)
  | expire (id : Nat) (timeoutMs : Nat)
deriving Repr, DecidableEq

def clientStep (st : ClientState) : ClientStep → ClientState
  | .alloc => (allocRequest st).2
  | .respond rid => (handleResponse st rid).1
  | .expire id t => (timeoutExpire st id t).1

def clientRun (st : ClientState) (steps : List ClientStep) : ClientState :=
  steps.foldl clientStep st

/-- Well-formedness of the correlation state: waiter ids are unique and
below the allocation counter.  Holds initially and is preserved by every
operation. -/
def ClientInv (st : ClientState) : Prop :=
  st.pending.Nodup ∧ ∀ i ∈ st.pending, i < st.next_id

/-! ## Server manager start_server (crates/agent-mcp/src/manager.rs:80-196) -/

structure ReconnectConfig where
  enabled : Bool
  initial_backoff_ms : Nat
  max_backoff_ms : Nat
  max_attempts : Nat
deriving Repr, DecidableEq

structure McpServerConfig where
  id : String
  name : Option String
  enabled : Bool
  request_timeout_ms : Nat
  healthcheck_interval_ms : Nat
  reconnect : ReconnectConfig
  allowed_tools : List String
  denied_tools : List String
deriving Repr, DecidableEq

structure McpServerInfo where
  name : String
  version : String
deriving Repr, DecidableEq

structure McpInitializeResult where
  server_info : McpServerInfo
deriving Repr, DecidableEq

/-- Runtime info recorded for a server (types.rs RuntimeInfo); timestamps
are the now parameter of startServer. -/
structure RuntimeInfo where
  status : ServerStatus
  last_error : Option String
  connected_at : Option Nat
  disconnected_at : Option Nat
  tool_count : Nat
  restart_count : Nat
  last_ping_at : Option Nat
deriving Repr

/-- The per-server runtime entry the manager stores (manager.rs ServerRuntime,
projected to the fields start_server writes). -/
structure ServerRuntimeEntry where
  config : McpServerConfig
  info : RuntimeInfo
  tools : List McpTool
deriving Repr

/-- Modelled from the spec: the tool index (crates/agent-mcp/src/tool_index.rs
is not part of the sources provided).  register_server_tools filters by the
allow and deny lists (allow empty means no restriction; deny always wins),
builds the alias mcp__{server_id}__{tool_name}, inserts the new aliases and
returns them (spec section 4.D and section 6). -/
def registerServerTools (serverId : String) (tools : List McpTool)
    (allowed denied : List String) : List ToolAlias :=
  (tools.filter (fun t =>
    (allowed.isEmpty || allowed.contains t.name) && !denied.contains t.name)).map
    (fun t => { aliasName := "mcp__" ++ serverId ++ "__" ++ t.name,
                server_id := serverId, original_name := t.name })

/-- The manager state touched by start_server: the runtime map and the tool
index contents. -/
structure ManagerState where
  runtimes : List (String × ServerRuntimeEntry)
  index : List ToolAlias

/-- McpServerManager::start_server.  The transport connect, initialize and
tools/list round-trips are external I/O and are passed in as their results.
Returns the new state, the events emitted on the event channel, and the
function result.  The code checks the runtime map, then connects,
initializes and lists tools (each ? returns early), and only then registers
aliases, stores the runtime and emits ServerStatusChanged{Ready} and
ToolsChanged. -/
def startServer (st : ManagerState) (config : McpServerConfig)
    (connectRes : Except McpError Unit)
    (initRes : Except McpError McpInitializeResult)
    (listToolsRes : Except McpError (List McpTool))
    (now : Nat) :
    ManagerState × List McpEvent × Except McpError Unit :=
  if (st.runtimes.lookup config.id).isSome then
    (st, [], .error (.AlreadyRunning config.id))
  else
    match connectRes with
    | .error e => (st, [], .error e)
    | .ok () =>
      match initRes with
      | .error e => (st, [], .error e)
      | .ok _ =>
        match listToolsRes with
        | .error e => (st, [], .error e)
        | .ok tools =>
          let aliases := registerServerTools config.id tools
            config.allowed_tools config.denied_tools
          let runtime : ServerRuntimeEntry :=
            { config := config,
              info := { status := .Ready, last_error := none,
                        connected_at := some now, disconnected_at := none,
                        tool_count := tools.length, restart_count := 0,
                        last_ping_at := some now },
              tools := tools }
          let st1 : ManagerState :=
            { runtimes := st.runtimes ++ [(config.id, runtime)],
              index := st.index ++ aliases }
          (st1,
           [.ServerStatusChanged config.id .Ready none,
            .ToolsChanged config.id (aliases.map ToolAlias.aliasName)],
           .ok ())

/-! ## Internal chunk stream (crates/agent-llm LLMChunk) -/

inductive LLMChunk where
  | Token (s : String)
  | ToolCalls (calls : List ToolCall)
  | Done
deriving Repr, DecidableEq

/-! ## Gemini-facing SSE re-encoder
(crates/web_service/src/controllers/gemini_controller.rs,
stream_generate_content lines 200-289) -/

structure GeminiFunctionCall where
  name : String
  args : Json
deriving Repr

structure GeminiPart where
  text : Option String
  function_call : Option GeminiFunctionCall
  function_response : Option Json
deriving Repr

structure GeminiContent where
  role : String
  parts : List GeminiPart
deriving Repr

structure GeminiCandidate where
  content : GeminiContent
  finish_reason : Option String
deriving Repr

structure GeminiResponse where
  candidates : List GeminiCandidate
deriving Repr

/-- The response chunk built for one internal Token (lines 204-216). -/
def geminiTokenResponse (token : String) : GeminiResponse :=
  { candidates := [{ content :=
                       { role := "model",
                         parts := [{ text := some token,
                                     function_call := none,
                                     function_response := none }] },
                     finish_reason := none }] }

/-- The args value for one tool call (lines 233-234):
serde_json::from_str(arguments).unwrap_or(empty object). -/
def geminiToolCallArgs (tc : ToolCall) : Json :=
  (jsonParse tc.function.arguments).getD (Json.obj [])

/-- The response chunk built for one tool call inside a ToolCalls chunk
(lines 236-251). -/
def geminiToolCallResponse (tc : ToolCall) : GeminiResponse :=
  { candidates := [{ content :=
                       { role := "model",
                         parts := [{ text := none,
                                     function_call :=
                                       some { name := tc.function.name,
                                              args := geminiToolCallArgs tc },
                                     function_response := none }] },
                     finish_reason := none }] }

/-- The final chunk built on Done (lines 268-276). -/
def geminiFinalResponse : GeminiResponse :=
  { candidates := [{ content := { role := "model", parts := [] },
                     finish_reason := some "STOP" }] }

/-- One iteration of the stream! loop (lines 201-288): the SSE items
yielded for one upstream chunk, and whether the loop continues.  Token and
ToolCalls yield data lines and continue; Done yields the final chunk and
breaks; an upstream stream error yields an error item and breaks. -/
def geminiStreamStep (chunk : Except LLMError LLMChunk) :
    List (Except String GeminiResponse) × Bool :=
  match chunk with
  | .ok (.Token token) => ([.ok (geminiTokenResponse token)], true)
  | .ok (.ToolCalls tool_calls) =>
    (tool_calls.map (fun tc => .ok (geminiToolCallResponse tc)), true)
  | .ok .Done => ([.ok geminiFinalResponse], false)
  | .error e => ([.error ("Stream error: " ++ e.display)], false)

/-- The whole re-encoding loop over the upstream chunk list. -/
def geminiEncodeStream : List (Except LLMError LLMChunk) →
    List (Except String GeminiResponse)
  | [] => []
  | chunk :: rest =>
    let (items, keepGoing) := geminiStreamStep chunk
    items ++ (if keepGoing then geminiEncodeStream rest else [])

/-! ## Anthropic /v1/messages streaming re-encoder

Modelled from the spec: the Anthropic-facing controller of the web service
is not among the sources provided (only its integration tests are).  Spec
section 4.H: the stream opens with message_start; the first text token
opens content_block 0 of type text and every token emits a text_delta;
each tool call emits content_block_start (type tool_use, with the call id
and name), one input_json_delta carrying the arguments string, and
content_block_stop; the stream terminates with
message_delta{stop_reason:"end_turn"}, message_stop, and a literal
"data: [DONE]" line.  Per spec section 8 scenario 3 a text block left open
when a tool call arrives is not closed again later, while (per the
repository's test test_messages_streaming) a text block still open at Done
is closed before message_delta. -/

inductive AnthropicBlock where
  | textBlock
  | toolUse (id : String) (name : String)
deriving Repr, DecidableEq

inductive AnthropicDelta where
  | textDelta (text : String)
  | inputJsonDelta (argsJson : String)
deriving Repr, DecidableEq

inductive AnthropicLine where
  | messageStart
  | contentBlockStart (index : Nat) (block : AnthropicBlock)
  | contentBlockDelta (index : Nat) (delta : AnthropicDelta)
  | contentBlockStop (index : Nat)
  | messageDelta (stopReason : String)
  | messageStop
  | doneLine
deriving Repr, DecidableEq

/-- The SSE event name of each emitted line (the doneLine is the literal
final data line, not a named event). -/
def AnthropicLine.tag : AnthropicLine → String
  | .messageStart => "message_start"
  | .contentBlockStart _ _ => "content_block_start"
  | .contentBlockDelta _ _ => "content_block_delta"
  | .contentBlockStop _ => "content_block_stop"
  | .messageDelta _ => "message_delta"
  | .messageStop => "message_stop"
  | .doneLine => "data: [DONE]"

structure AnthropicEncState where
  nextIndex : Nat
  openTextIndex : Option Nat
deriving Repr, DecidableEq

/-- The lines emitted for one internal chunk, with the updated block state. -/
def anthropicEncodeChunk (st : AnthropicEncState) (chunk : LLMChunk) :
    List AnthropicLine × AnthropicEncState :=
  match chunk with
  | .Token text =>
    match st.openTextIndex with
    | some i => ([.contentBlockDelta i (.textDelta text)], st)
    | none =>
      ([.contentBlockStart st.nextIndex .textBlock,
        .contentBlockDelta st.nextIndex (.textDelta text)],
       { nextIndex := st.nextIndex + 1, openTextIndex := some st.nextIndex })
  | .ToolCalls calls =>
    let step : AnthropicEncState → ToolCall → List AnthropicLine × AnthropicEncState :=
      fun s tc =>
        ([.contentBlockStart s.nextIndex (.toolUse tc.id tc.function.name),
          .contentBlockDelta s.nextIndex (.inputJsonDelta tc.function.arguments),
          .contentBlockStop s.nextIndex],
         { nextIndex := s.nextIndex + 1, openTextIndex := none })
    calls.foldl (fun (acc : List AnthropicLine × AnthropicEncState) tc =>
      let (ls, s2) := step acc.2 tc
      (acc.1 ++ ls, s2)) ([], st)
  | .Done =>
    match st.openTextIndex with
    | some i =>
      ([.contentBlockStop i, .messageDelta "end_turn", .messageStop, .doneLine],
       { st with openTextIndex := none })
    | none =>
      ([.messageDelta "end_turn", .messageStop, .doneLine], st)

def anthropicEncodeAux (st : AnthropicEncState) : List LLMChunk → List AnthropicLine
  | [] => []
  | chunk :: rest =>
    let (ls, st2) := anthropicEncodeChunk st chunk
    if chunk = .Done then ls
    else ls ++ anthropicEncodeAux st2 rest

/-- The full Anthropic streaming body for an internal chunk stream. -/
def anthropicEncode (chunks : List LLMChunk) : List AnthropicLine :=
  .messageStart :: anthropicEncodeAux { nextIndex := 0, openTextIndex := none } chunks

/-! ## Concrete inputs used by witnesses -/

/-- The tool call of spec section 8 scenarios 2 and 3: name "search",
arguments the JSON document with q = "test". -/
def searchToolCall : ToolCall :=
  { id := "call_1", tool_type := "function",
    function := { name := "search",
                  arguments := "\x7b\"q\":\"test\"\x7d" } }

/-- A tool call whose arguments string is not valid JSON. -/
def badArgsToolCall : ToolCall :=
  { id := "call_2", tool_type := "function",
    function := { name := "lookup", arguments := "not json" } }

/-- A tool call with empty-object arguments, dispatched through MCP. -/
def mcpFixtureCall : ToolCall :=
  { id := "call_3", tool_type := "function",
    function := { name := "mcp__fs__read", arguments := "\x7b\x7d" } }

def mcpFixtureAlias : ToolAlias :=
  { aliasName := "mcp__fs__read", server_id := "fs", original_name := "read" }

/-- A manager dispatch whose tools/call result carries isError = true. -/
def mcpFixtureDispatch : Json → Except McpError McpCallResult :=
  fun _ => .ok { content := [.Text "file does not exist"], is_error := true }

/-- An empty manager state (no runtimes, no aliases). -/
def emptyManagerState : ManagerState := { runtimes := [], index := [] }

/-- A concrete server configuration for the start_server witness. -/
def fixtureServerConfig : McpServerConfig :=
  { id := "fs", name := some "Filesystem", enabled := true,
    request_timeout_ms := 60000, healthcheck_interval_ms := 30000,
    reconnect := { enabled := true, initial_backoff_ms := 1000,
                   max_backoff_ms := 30000, max_attempts := 0 },
    allowed_tools := [], denied_tools := [] }

/-! # Theorems -/

/-! ## C1 — SSE endpoint event vs POST target -/

theorem sseProcessEvent_endpoint_url (st : SseConnState) (ev : SseEvent) :
    (sseProcessEvent st ev).endpoint_url = st.endpoint_url := by
  unfold sseProcessEvent
  split
  · rfl
  · split <;> rfl

theorem sseFoldl_endpoint_url (evs : List SseEvent) (st : SseConnState) :
    (evs.foldl sseProcessEvent st).endpoint_url = st.endpoint_url := by
  induction evs generalizing st with
  | nil => rfl
  | cons ev evs ih => rw [List.foldl_cons, ih, sseProcessEvent_endpoint_url]

/-- Claim C1 (code bug): the claim says an announced `endpoint` SSE event is
recorded and every subsequent send POSTs there.  In the code the event-loop
branch for "endpoint" only logs the data, so endpoint_url stays none after
any sequence of SSE events — including one that announces an endpoint — and
send always POSTs to the derived URL: for the configured URL
"http://localhost:8080/sse" and an announced endpoint
"http://localhost:8080/custom", the POST still goes to
"http://localhost:8080/message". -/
theorem c1_endpoint_never_recorded :
    (∀ evs : List SseEvent, (sseConnectLoop evs).endpoint_url = none) ∧
    ssePostUrl "http://localhost:8080/sse"
        (sseConnectLoop [{ event := "endpoint",
                           data := "http://localhost:8080/custom" }]).endpoint_url
      = "http://localhost:8080/message" ∧
    "http://localhost:8080/message" ≠ "http://localhost:8080/custom" := by
  refine ⟨fun evs => ?_, by rfl, by decide⟩
  exact sseFoldl_endpoint_url evs sseInitState

/-! ## C2 — 401/403 classification in the providers -/

/-- Claim C2 counterexample: the OpenAI-compatible provider surfaces an
upstream 401 as a plain Api error, not as Auth. -/
theorem c2_openai_401_is_api :
    openaiChatStreamStatusCheck 401 "invalid key"
      = some (.Api "HTTP 401 Unauthorized: invalid key") ∧
    (openaiChatStreamStatusCheck 401 "invalid key").all (fun e => !isAuthError e) := by
  exact ⟨by rfl, by rfl⟩

/-- Claim C2 as amended: only the Gemini provider reclassifies upstream 401
and 403 into an Auth error with a credential hint; the OpenAI-compatible
provider surfaces every non-success status, 401 and 403 included, as a
plain Api error. -/
theorem c2_auth_classification (status : Nat) (text : String)
    (hfail : isSuccessStatus status = false)
    (hauth : status = 401 ∨ status = 403) :
    geminiChatStreamStatusCheck status text
      = some (.Auth ("Gemini authentication failed: " ++ text ++
          ". Please check your API key.")) ∧
    openaiChatStreamStatusCheck status text
      = some (.Api ("HTTP " ++ statusDisplay status ++ ": " ++ text)) := by
  constructor
  · unfold geminiChatStreamStatusCheck
    rw [hfail]
    simp [hauth]
  · unfold openaiChatStreamStatusCheck
    rw [hfail]
    simp

theorem c2_auth_classification_witness :
    isSuccessStatus 401 = false ∧
    (geminiChatStreamStatusCheck 401 "key rejected"
       = some (.Auth "Gemini authentication failed: key rejected. Please check your API key.") ∧
     openaiChatStreamStatusCheck 401 "key rejected"
       = some (.Api "HTTP 401 Unauthorized: key rejected")) :=
  ⟨by decide, c2_auth_classification 401 "key rejected" (by decide) (Or.inl rfl)⟩

/-! ## C3 — reconnection backoff sequence -/

/-- Claim C3: with initial_backoff_ms = 1000 and max_backoff_ms = 30000 and
every attempt failing, the delays slept before successive attempts are
1000, 2000, 4000, 8000, 16000, 30000 and then 30000 forever. -/
theorem c3_backoff_sequence :
    (List.range 7).map (backoffDelay 1000 30000)
      = [1000, 2000, 4000, 8000, 16000, 30000, 30000] ∧
    ∀ n : Nat, backoffDelay 1000 30000 (n + 5) = 30000 := by
  constructor
  · rfl
  · intro n
    induction n with
    | zero => rfl
    | succ k ih =>
      show backoffNext 30000 (backoffDelay 1000 30000 (k + 5)) = 30000
      rw [ih]
      rfl

/-! ## C4 — composite executor fallback discipline -/

/-- Claim C4: the composite executor invokes the MCP executor exactly once
when and only when the built-in executor returned NotFound; in that case
the MCP outcome is the result, and in every other case the built-in outcome
is returned unchanged with zero MCP invocations. -/
theorem c4_composite_fallback (b m : Except ToolError ToolResult) :
    (compositeExecute b m).2 = (if isNotFoundErr b then 1 else 0) ∧
    (compositeExecute b m).1 = (if isNotFoundErr b then m else b) := by
  cases b with
  | ok r => exact ⟨rfl, rfl⟩
  | error e => cases e <;> exact ⟨rfl, rfl⟩

/-! ## C5 — MCP executor on isError = true -/

/-- Claim C5: when the manager dispatch returns a tools/call result with
isError = true, McpToolExecutor::execute returns Ok with success = false
and the flattened content text as result — never a ToolError. -/
theorem c5_is_error_gives_ok (call : ToolCall) (al : ToolAlias)
    (callTool : Json → Except McpError McpCallResult)
    (args : Json) (r : McpCallResult)
    (hparse : jsonParse call.function.arguments = some args)
    (hcall : callTool args = .ok r)
    (herr : r.is_error = true) :
    mcpExecute call (some al) callTool
      = .ok { success := false, result := formatResultContent r.content,
              display_preference := none } := by
  unfold mcpExecute
  rw [hparse]
  simp [hcall, herr]

theorem c5_is_error_gives_ok_witness :
    jsonParse mcpFixtureCall.function.arguments = some (Json.obj []) ∧
    mcpExecute mcpFixtureCall (some mcpFixtureAlias) mcpFixtureDispatch
      = .ok { success := false, result := "file does not exist",
              display_preference := none } :=
  ⟨by rfl,
   c5_is_error_gives_ok mcpFixtureCall mcpFixtureAlias mcpFixtureDispatch
     (Json.obj []) { content := [.Text "file does not exist"], is_error := true }
     (by rfl) (by rfl) (by rfl)⟩

/-! ## C6 — Anthropic streaming event order -/

/-- Claim C6: for the internal stream Token, ToolCalls with one call, Done,
the Anthropic /v1/messages streaming endpoint emits exactly message_start,
content_block_start, content_block_delta, content_block_start,
content_block_delta, content_block_stop, message_delta, message_stop, in
that order, followed by the final data: [DONE] line.  (The re-encoder is
modelled from the spec; its source is not among the provided files.) -/
theorem c6_anthropic_event_order :
    (anthropicEncode [.Token "OK", .ToolCalls [searchToolCall], .Done]).map
        AnthropicLine.tag
      = ["message_start", "content_block_start", "content_block_delta",
         "content_block_start", "content_block_delta", "content_block_stop",
         "message_delta", "message_stop", "data: [DONE]"] := by rfl

/-! ## C7 — Gemini re-encoding of parseable tool-call arguments -/

/-- Claim C7: every tool call whose arguments string parses as JSON is
re-encoded by the Gemini-facing SSE stream as an event whose candidate
carries a functionCall part with the same name and with args equal, as a
JSON value, to the parsed arguments. -/
theorem c7_gemini_function_call_args (tcs : List ToolCall) (tc : ToolCall)
    (v : Json) (hmem : tc ∈ tcs)
    (hparse : jsonParse tc.function.arguments = some v) :
    Except.ok (geminiToolCallResponse tc)
        ∈ (geminiStreamStep (.ok (.ToolCalls tcs))).1 ∧
    geminiToolCallResponse tc
      = { candidates := [{ content :=
                             { role := "model",
                               parts := [{ text := none,
                                           function_call :=
                                             some { name := tc.function.name,
                                                    args := v },
                                           function_response := none }] },
                           finish_reason := none }] } := by
  constructor
  · simp only [geminiStreamStep, List.mem_map]
    exact ⟨tc, hmem, rfl⟩
  · unfold geminiToolCallResponse geminiToolCallArgs
    rw [hparse]
    rfl

theorem c7_gemini_function_call_args_witness :
    jsonParse searchToolCall.function.arguments
        = some (Json.obj [("q", Json.str "test")]) ∧
    (Except.ok (geminiToolCallResponse searchToolCall)
        ∈ (geminiStreamStep (.ok (.ToolCalls [searchToolCall]))).1 ∧
     geminiToolCallResponse searchToolCall
       = { candidates := [{ content :=
                              { role := "model",
                                parts := [{ text := none,
                                            function_call :=
                                              some { name := "search",
                                                     args := Json.obj
                                                       [("q", Json.str "test")] },
                                            function_response := none }] },
                            finish_reason := none }] }) :=
  ⟨by rfl,
   c7_gemini_function_call_args [searchToolCall] searchToolCall
     (Json.obj [("q", Json.str "test")]) (List.mem_singleton_self _) (by rfl)⟩

/-! ## C8 — request timeout removes the waiter for good -/

/-- An id is dead for the correlation state: no waiter holds it and the
allocator has moved past it. -/
def DeadId (id : Nat) (st : ClientState) : Prop :=
  id ∉ st.pending ∧ id < st.next_id

theorem clientStep_dead (id : Nat) (st : ClientState) (s : ClientStep)
    (h : DeadId id st) : DeadId id (clientStep st s) := by
  obtain ⟨hmem, hlt⟩ := h
  cases s with
  | alloc =>
    show DeadId id (allocRequest st).2
    refine ⟨?_, Nat.lt_succ_of_lt hlt⟩
    intro hin
    rcases List.mem_cons.mp hin with heq | hin2
    · exact absurd heq (Nat.ne_of_lt hlt)
    · exact hmem hin2
  | respond rid =>
    show DeadId id (handleResponse st rid).1
    unfold handleResponse
    split
    · exact ⟨fun hin => hmem (List.mem_of_mem_erase hin), hlt⟩
    · exact ⟨hmem, hlt⟩
  | expire i t =>
    show DeadId id (timeoutExpire st i t).1
    exact ⟨fun hin => hmem (List.mem_of_mem_erase hin), hlt⟩

theorem clientRun_dead (id : Nat) (st : ClientState) (steps : List ClientStep)
    (h : DeadId id st) : DeadId id (clientRun st steps) := by
  induction steps generalizing st with
  | nil => exact h
  | cons s rest ih => exact ih (clientStep st s) (clientStep_dead id st s h)

theorem handleResponse_dead (id : Nat) (st : ClientState)
    (h : id ∉ st.pending) : handleResponse st id = (st, false) := by
  unfold handleResponse
  rw [if_neg h]

/-- Claim C8: when a send_request times out, the client removes the pending
waiter for the allocated id and fails with a Timeout error; from then on,
whatever further requests, responses and timeouts the client processes, a
response carrying that id resolves no waiter and leaves the state
unchanged. -/
theorem c8_timeout_unresolvable (st : ClientState) (t : Nat)
    (hinv : ClientInv st) :
    (timeoutExpire (allocRequest st).2 (allocRequest st).1 t).2
      = McpError.Timeout ("Request " ++ toString (allocRequest st).1 ++
          " timed out after " ++ toString t ++ "ms") ∧
    (allocRequest st).1
        ∉ (timeoutExpire (allocRequest st).2 (allocRequest st).1 t).1.pending ∧
    ∀ steps : List ClientStep,
      handleResponse
          (clientRun (timeoutExpire (allocRequest st).2 (allocRequest st).1 t).1
            steps)
          (allocRequest st).1
        = (clientRun (timeoutExpire (allocRequest st).2 (allocRequest st).1 t).1
             steps, false) := by
  have hpend :
      (timeoutExpire (allocRequest st).2 (allocRequest st).1 t).1.pending
        = st.pending := by
    show (st.next_id :: st.pending).erase st.next_id = st.pending
    exact List.erase_cons_head st.next_id st.pending
  have hnotmem : st.next_id ∉ st.pending := by
    intro hin
    exact absurd (hinv.2 st.next_id hin) (Nat.lt_irrefl st.next_id)
  have hdead : DeadId (allocRequest st).1
      (timeoutExpire (allocRequest st).2 (allocRequest st).1 t).1 := by
    refine ⟨?_, ?_⟩
    · rw [hpend]; exact hnotmem
    · exact Nat.lt_succ_self st.next_id
  refine ⟨rfl, hdead.1, fun steps => ?_⟩
  exact handleResponse_dead _ _ (clientRun_dead _ _ steps hdead).1

theorem c8_timeout_unresolvable_witness :
    ClientInv clientInitState ∧
    ((timeoutExpire (allocRequest clientInitState).2
        (allocRequest clientInitState).1 5000).2
      = McpError.Timeout "Request 1 timed out after 5000ms" ∧
    handleResponse
        (clientRun (timeoutExpire (allocRequest clientInitState).2
          (allocRequest clientInitState).1 5000).1 [.alloc, .respond 2])
        (allocRequest clientInitState).1
      = (clientRun (timeoutExpire (allocRequest clientInitState).2
           (allocRequest clientInitState).1 5000).1 [.alloc, .respond 2], false)) :=
  ⟨⟨List.nodup_nil, by intro i hi; exact absurd hi (List.not_mem_nil i)⟩,
   (c8_timeout_unresolvable clientInitState 5000
      ⟨List.nodup_nil, by intro i hi; exact absurd hi (List.not_mem_nil i)⟩).1,
   (c8_timeout_unresolvable clientInitState 5000
      ⟨List.nodup_nil, by intro i hi; exact absurd hi (List.not_mem_nil i)⟩).2.2
     [.alloc, .respond 2]⟩

/-! ## C9 — start_server atomicity on failure -/

/-- Claim C9: whenever start_server returns an error — AlreadyRunning or a
connect, initialize, or tools/list failure — the runtime map and the tool
index are unchanged and no events are emitted. -/
theorem c9_start_server_atomic (st : ManagerState) (cfg : McpServerConfig)
    (cr : Except McpError Unit) (ir : Except McpError McpInitializeResult)
    (lr : Except McpError (List McpTool)) (now : Nat) (e : McpError)
    (h : (startServer st cfg cr ir lr now).2.2 = .error e) :
    (startServer st cfg cr ir lr now).1 = st ∧
    (startServer st cfg cr ir lr now).2.1 = [] := by
  unfold startServer at h ⊢
  by_cases hid : (st.runtimes.lookup cfg.id).isSome
  · simp [hid]
  · simp only [hid, Bool.false_eq_true, if_false, if_neg] at h ⊢
    cases cr with
    | error e2 => exact ⟨rfl, rfl⟩
    | ok u =>
      cases u
      cases ir with
      | error e2 => exact ⟨rfl, rfl⟩
      | ok i =>
        cases lr with
        | error e2 => exact ⟨rfl, rfl⟩
        | ok tools => simp at h

theorem c9_start_server_atomic_witness :
    (startServer emptyManagerState fixtureServerConfig
        (.error (.Connection "connection refused"))
        (.ok { server_info := { name := "srv", version := "1.0" } })
        (.ok []) 0).1 = emptyManagerState ∧
    (startServer emptyManagerState fixtureServerConfig
        (.error (.Connection "connection refused"))
        (.ok { server_info := { name := "srv", version := "1.0" } })
        (.ok []) 0).2.1 = [] :=
  c9_start_server_atomic emptyManagerState fixtureServerConfig
    (.error (.Connection "connection refused"))
    (.ok { server_info := { name := "srv", version := "1.0" } })
    (.ok []) 0 (.Connection "connection refused") (by rfl)

/-! ## C10 — Gemini re-encoding of unparseable tool-call arguments -/

/-- Claim C10: a tool call whose arguments string is not valid JSON is
re-encoded with args equal to the empty JSON object, the emitted item is a
normal data event carrying that functionCall, every item yielded for the
ToolCalls chunk is a data event (not an error), and the loop continues. -/
theorem c10_invalid_args_empty_object (tcs : List ToolCall) (tc : ToolCall)
    (hmem : tc ∈ tcs)
    (hparse : jsonParse tc.function.arguments = none) :
    geminiToolCallArgs tc = Json.obj [] ∧
    Except.ok (geminiToolCallResponse tc)
        ∈ (geminiStreamStep (.ok (.ToolCalls tcs))).1 ∧
    (geminiStreamStep (.ok (.ToolCalls tcs))).2 = true ∧
    ∀ item ∈ (geminiStreamStep (.ok (.ToolCalls tcs))).1,
      ∃ r, item = .ok r := by
  refine ⟨?_, ?_, rfl, ?_⟩
  · unfold geminiToolCallArgs
    rw [hparse]
    rfl
  · simp only [geminiStreamStep, List.mem_map]
    exact ⟨tc, hmem, rfl⟩
  · intro item hitem
    simp only [geminiStreamStep, List.mem_map] at hitem
    obtain ⟨tc2, _, heq⟩ := hitem
    exact ⟨geminiToolCallResponse tc2, heq.symm⟩

theorem c10_invalid_args_empty_object_witness :
    jsonParse badArgsToolCall.function.arguments = none ∧
    (geminiToolCallArgs badArgsToolCall = Json.obj [] ∧
     Except.ok (geminiToolCallResponse badArgsToolCall)
        ∈ (geminiStreamStep (.ok (.ToolCalls [badArgsToolCall]))).1 ∧
     (geminiStreamStep (.ok (.ToolCalls [badArgsToolCall]))).2 = true) :=
  ⟨by rfl,
   (c10_invalid_args_empty_object [badArgsToolCall] badArgsToolCall
      (List.mem_singleton_self _) (by rfl)).1,
   (c10_invalid_args_empty_object [badArgsToolCall] badArgsToolCall
      (List.mem_singleton_self _) (by rfl)).2.1,
   (c10_invalid_args_empty_object [badArgsToolCall] badArgsToolCall
      (List.mem_singleton_self _) (by rfl)).2.2.1⟩

end Bamboo
